import Mathlib

set_option maxRecDepth 200000

/-!
Shallow embedding of src/converter.py (indic2unicode): the Kruti Dev to
Unicode Devanagari converter.  Text is modelled as List Char; the two mapping
dictionaries of the source are association lists built with Python dict
literal semantics (a duplicated key keeps its first position and takes its
last value); Python str.replace is modelled by replaceAll; the i-matra
reordering while loop by reorderIMatra; the residual (unconverted character)
scan by unconvertedChars and the stderr debug report by stderrReport.
Characters that are awkward to quote in Lean source (apostrophe, double
quote, braces, the invisible soft hyphen) are written by codepoint.
-/

namespace Indic2Unicode

/-- Apostrophe, U+0027. -/
def sq : Char := Char.ofNat 0x27

/-- Double quotation mark, U+0022. -/
def dq : Char := Char.ofNat 0x22

/-- Left curly brace, U+007B. -/
def lb : Char := Char.ofNat 0x7B

/-- Right curly brace, U+007D. -/
def rb : Char := Char.ofNat 0x7D

/-- Soft hyphen, U+00AD (invisible in source text, hence written by codepoint). -/
def shy : Char := Char.ofNat 0xAD

/-- Devanagari vowel sign i, U+093F: the matra written by the reordering pass. -/
def iMatra : Char := Char.ofNat 0x93F

/-- Items of the multi_char_mapping dict literal of the source, in source
order.  Keys [+k and the like are two or three legacy units long. -/
def multi_char_entries : List (List Char × List Char) := [
  ("[+k".toList, "ख़".toList),
  ("[+".toList, "ख़्".toList),
  ("x+".toList, "ग़".toList),
  ("T+".toList, "ज़्".toList),
  ("t+".toList, "ज़".toList),
  ("M+".toList, "ड़".toList),
  ("<+".toList, "ढ़".toList),
  ("Q+".toList, "फ़".toList),
  (";+".toList, "य़".toList),
  ("j+".toList, "ऱ".toList),
  ("u+".toList, "ऩ".toList),
  ("¶+".toList, "फ़्".toList),
  ("d+".toList, "क़".toList),
  ("[k".toList, "ख".toList),
  ("Xk".toList, "ग".toList),
  ("Dk".toList, "क".toList),
  ("?k".toList, "घ".toList),
  ("Pk".toList, "च".toList),
  ("Tk".toList, "ज".toList),
  ("Fk".toList, "थ".toList),
  ("/k".toList, "ध".toList),
  ([sq, 'k'], "श".toList),
  ([dq, 'k'], "ष".toList),
  ("Hk".toList, "भ".toList),
  (".k".toList, "ण".toList),
  ("vks".toList, "ओ".toList),
  ("vkS".toList, "औ".toList),
  ("vk".toList, "आ".toList),
  ("bZ".toList, "ई".toList),
  (",s".toList, "ऐ".toList),
  ([lb, 'k'], "क्ष".toList),
  ("=k".toList, "त्र".toList),
  ("Ùk".toList, "त्त".toList),
  ("nzZ".toList, "र्द्र".toList),
  (")Z".toList, "र्द्ध".toList),
  ("Nî".toList, "छ्य".toList),
  ("Vî".toList, "ट्य".toList),
  ("Bî".toList, "ठ्य".toList),
  ("Mî".toList, "ड्य".toList),
  ("<î".toList, "ढ्य".toList),
  ("Vª".toList, "ट्र".toList),
  ("Mª".toList, "ड्र".toList),
  ("<ªª".toList, "ढ्र".toList),
  ("Nª".toList, "छ्र".toList),
  ("xz".toList, "ग्र".toList),
  ("ºz".toList, "ह्र".toList),
  ("èQs".toList, "द्ध".toList),
  ("pkS".toList, "चौ".toList),
  ("=kk".toList, "त्रा".toList),
  ("f=k".toList, "त्रि".toList)
]

/-- Items of the single_char_mapping dict literal of the source, in source
order, duplicates included.  The apostrophe key appears three times (once
mapping to the Devanagari sequence, twice mapping to itself) and the mangled
quote escaping of the last table line yields a seven character key made of a
colon, a space, three double quotes, a comma and a space, mapping to one
double quote. -/
def single_char_entries : List (List Char × List Char) := [
  ("É".toList, "ा".toList),
  ("®".toList, "र".toList),
  ("Ê".toList, "ि".toList),
  ("à".toList, "म".toList),
  ("º".toList, "स".toList),
  ("ª".toList, "य".toList),
  ("Ò".toList, "ी".toList),
  ("ã".toList, "े".toList),
  ("å".toList, "न".toList),
  ("è".toList, "ु".toList),
  ("¤".toList, "ब".toList),
  ("´".toList, "ृ".toList),
  ("Æ".toList, "ं".toList),
  ("Ö".toList, "ु".toList),
  ("¶".toList, "फ्".toList),
  ("£".toList, "भ".toList),
  ("Ç".toList, "र्".toList),
  ("Ú".toList, "ूं".toList),
  ("½".toList, "ल".toList),
  ([shy], "ष".toList),
  ("Ó".toList, "ों".toList),
  ("â".toList, "ू".toList),
  ("ó".toList, "ृ".toList),
  ("Å".toList, "ऊ".toList),
  ("§".toList, "ू".toList),
  ("Ë".toList, "ू".toList),
  ("Î".toList, "ी".toList),
  ("Ã".toList, "ई".toList),
  ("Ì".toList, "ि".toList),
  ("ß".toList, "्".toList),
  ("Í".toList, "िं".toList),
  ("Ô".toList, "ौ".toList),
  ("È".toList, "इ".toList),
  ("°".toList, "॰".toList),
  ("æ".toList, "द्र".toList),
  ("ì".toList, "ड्ड".toList),
  ("ô".toList, "क्क".toList),
  ("é".toList, "न्न".toList),
  ("ä".toList, "क्त".toList),
  ("d".toList, "क".toList),
  ("D".toList, "क्".toList),
  ("[".toList, "ख्".toList),
  ("x".toList, "ग".toList),
  ("X".toList, "ग्".toList),
  ("Ä".toList, "घ".toList),
  ("?".toList, "घ्".toList),
  ("³".toList, "ङ".toList),
  ("p".toList, "च".toList),
  ("P".toList, "च्".toList),
  ("N".toList, "छ".toList),
  ("t".toList, "ज".toList),
  ("T".toList, "ज्".toList),
  (">".toList, "झ".toList),
  ("÷".toList, "झ्".toList),
  ("¥".toList, "ञ".toList),
  ("V".toList, "ट".toList),
  ("B".toList, "ठ".toList),
  ("M".toList, "ड".toList),
  ("<".toList, "ढ".toList),
  (".".toList, "ण्".toList),
  ("r".toList, "त".toList),
  ("R".toList, "त्".toList),
  ("F".toList, "थ्".toList),
  (")".toList, "द्ध".toList),
  ("n".toList, "द".toList),
  ("/".toList, "ध्".toList),
  ("u".toList, "न".toList),
  ("U".toList, "न्".toList),
  ("i".toList, "प".toList),
  ("I".toList, "प्".toList),
  ("Q".toList, "फ".toList),
  ("c".toList, "ब".toList),
  ("C".toList, "ब्".toList),
  ("H".toList, "भ्".toList),
  ("e".toList, "म".toList),
  ("E".toList, "म्".toList),
  (";".toList, "य".toList),
  ("¸".toList, "य्".toList),
  ("j".toList, "र".toList),
  ("y".toList, "ल".toList),
  ("Y".toList, "ल्".toList),
  ("G".toList, "ळ".toList),
  ("o".toList, "व".toList),
  ("O".toList, "व्".toList),
  ([sq], "श्".toList),
  ([dq], "ष्".toList),
  ("l".toList, "स".toList),
  ("L".toList, "स्".toList),
  ("g".toList, "ह".toList),
  ("k".toList, "ा".toList),
  ("s".toList, "ी".toList),
  ("h".toList, "ु".toList),
  ("w".toList, "ू".toList),
  ("S".toList, "े".toList),
  ("a".toList, "ै".toList),
  ("¨".toList, "ॅ".toList),
  ("‚".toList, "ॉ".toList),
  ("^".toList, "ँ".toList),
  ("~".toList, "्".toList),
  ("Z".toList, "़".toList),
  ([lb], "क्ष्".toList),
  ("=".toList, "त्र्".toList),
  ("«".toList, "त्र्".toList),
  ("K".toList, "ज्ञ".toList),
  ("J".toList, "श्र".toList),
  ("Ø".toList, "क्र".toList),
  ("Ý".toList, "फ्र".toList),
  ("ç".toList, "प्र".toList),
  ("Á".toList, "प्र".toList),
  ("í".toList, "द्द".toList),
  ("|".toList, "द्य".toList),
  ([rb], "द्व".toList),
  ("#".toList, "रु".toList),
  (":".toList, "रू".toList),
  ("–".toList, "दृ".toList),
  ("—".toList, "कृ".toList),
  ("v".toList, "अ".toList),
  ("b".toList, "इ".toList),
  ("m".toList, "उ".toList),
  (",".toList, "ए".toList),
  ("_".toList, "ऋ".toList),
  ("0".toList, "०".toList),
  ("1".toList, "१".toList),
  ("2".toList, "२".toList),
  ("3".toList, "३".toList),
  ("4".toList, "४".toList),
  ("5".toList, "५".toList),
  ("6".toList, "६".toList),
  ("7".toList, "७".toList),
  ("8".toList, "८".toList),
  ("9".toList, "९".toList),
  ("ñ".toList, "॰".toList),
  ("*".toList, "।".toList),
  ([sq], [sq]),
  ([sq], [sq]),
  ([':', ' ', dq, dq, dq, ',', ' '], [dq])
]


/-- Update every binding of key k (there is at most one) to value v. -/
def updateVal (k v : List Char) : List (List Char × List Char) → List (List Char × List Char)
  | [] => []
  | p :: ps => if p.1 = k then (p.1, v) :: updateVal k v ps else p :: updateVal k v ps

/-- Add one item with Python dict literal semantics: a key that is already
present keeps its original position and takes the new value; a new key is
appended at the end. -/
def dictInsert (d : List (List Char × List Char)) (kv : List Char × List Char) :
    List (List Char × List Char) :=
  if d.any (fun p => p.1 == kv.1) then updateVal kv.1 kv.2 d else d ++ [kv]

/-- The dictionary denoted by a Python dict literal with the given items. -/
def dictOf (entries : List (List Char × List Char)) : List (List Char × List Char) :=
  entries.foldl dictInsert []

/-- The multi_char_mapping dict of the source. -/
def multi_char_mapping : List (List Char × List Char) := dictOf multi_char_entries

/-- The single_char_mapping dict of the source. -/
def single_char_mapping : List (List Char × List Char) := dictOf single_char_entries

/-- Stable insertion into a list sorted by key length, descending.  The
inserted element comes from earlier in the original order, so it goes before
every element whose key is not strictly longer: this reproduces the stability
of Python sorted. -/
def insertLenDesc (x : List Char × List Char) :
    List (List Char × List Char) → List (List Char × List Char)
  | [] => [x]
  | y :: ys => if x.1.length < y.1.length then y :: insertLenDesc x ys else x :: y :: ys

/-- sorted(mapping.keys(), key=len, reverse=True) of the source, carrying the
values along with the keys. -/
def sortByLenDesc : List (List Char × List Char) → List (List Char × List Char)
  | [] => []
  | x :: xs => insertLenDesc x (sortByLenDesc xs)

/-- Worker for Python text.replace(pat, rep), structurally recursive on a
fuel argument so that it evaluates by kernel reduction.  Each step consumes
at least one character of the remaining text, so fuel equal to the text
length never runs out; a zero-fuel call returns the text unchanged. -/
def replaceFuel (pat rep : List Char) : Nat → List Char → List Char
  | 0, text => text
  | _ + 1, [] => []
  | n + 1, c :: rest =>
    if pat ≠ [] ∧ pat.isPrefixOf (c :: rest) then
      rep ++ replaceFuel pat rep n ((c :: rest).drop pat.length)
    else
      c :: replaceFuel pat rep n rest

/-- Python text.replace(pat, rep): left to right, non-overlapping, and the
replacement text is not rescanned for the same pattern.  The guard on pat
being nonempty is unreachable for this program, since no table key is empty. -/
def replaceAll (pat rep text : List Char) : List Char :=
  replaceFuel pat rep text.length text

/-- One substitution pass of the source: for each pattern, longest first and
stable on ties, rewrite the whole running text with replace. -/
def applyTable (table : List (List Char × List Char)) (text : List Char) : List Char :=
  (sortByLenDesc table).foldl (fun acc p => replaceAll p.1 p.2 acc) text

/-- Step 3 of the source: the while loop that, on seeing the marker f with a
following character, moves that character into the marker position, writes the
i-matra after it and skips past both; a trailing f with nothing after it is
left alone. -/
def reorderIMatra : List Char → List Char
  | [] => []
  | [c] => [c]
  | c :: d :: rest =>
    if c = 'f' then d :: iMatra :: reorderIMatra rest
    else c :: reorderIMatra (d :: rest)

/-- Steps 1 and 2 of kruti_dev_to_unicode: the multi character pass, then the
single character pass. -/
def substituted (text : List Char) : List Char :=
  applyTable single_char_mapping (applyTable multi_char_mapping text)

/-- The conversion on character lists: substitution then reordering.  This is
the value the source binds to result and returns. -/
def convertChars (text : List Char) : List Char :=
  reorderIMatra (substituted text)

/-- kruti_dev_to_unicode of the source: its return value on a given text. -/
def kruti_dev_to_unicode (text : String) : String :=
  String.mk (convertChars text.toList)

/-- The backslash-s class of the residual regex.  The source uses the mrab
regex module, whose backslash-s on str is the Unicode White_Space property
(UTS 18 compatibility property): U+0009..U+000D, U+0020, U+0085, U+00A0,
U+1680, U+2000..U+200A, U+2028, U+2029, U+202F, U+205F, U+3000 — and nothing
else (in particular not U+001C..U+001F, which CPython re would add). -/
def isRegexSpace (c : Char) : Bool :=
  let n := c.toNat
  (0x9 ≤ n && n ≤ 0xD) || n == 0x20 || n == 0x85 ||
  n == 0xA0 || n == 0x1680 || (0x2000 ≤ n && n ≤ 0x200A) || n == 0x2028 ||
  n == 0x2029 || n == 0x202F || n == 0x205F || n == 0x3000

/-- The accepted class of the residual regex: Devanagari block, printable
ASCII, whitespace, danda and double danda, and the Gurmukhi block.  The
residual findall matches exactly the characters outside this class. -/
def acceptedChar (c : Char) : Bool :=
  let n := c.toNat
  (0x900 ≤ n && n ≤ 0x97F) || (0x20 ≤ n && n ≤ 0x7E) || isRegexSpace c ||
  (0x964 ≤ n && n ≤ 0x965) || (0xA00 ≤ n && n ≤ 0xA7F)

/-- regex.findall of the residual pattern on the converted text: the
unconverted characters, in order, repetitions included. -/
def unconvertedChars (result : List Char) : List Char :=
  result.filter (fun c => !(acceptedChar c))

/-- Ascending insertion, for Python sorted over characters. -/
def insertAsc (c : Char) : List Char → List Char
  | [] => [c]
  | d :: ds => if c ≤ d then c :: d :: ds else d :: insertAsc c ds

/-- Python sorted over characters, ascending. -/
def sortAsc : List Char → List Char
  | [] => []
  | c :: cs => insertAsc c (sortAsc cs)

/-- Worker for duplicate removal, structurally recursive on fuel (fuel equal
to the list length never runs out, since filtering only shortens the tail). -/
def dedupFuel : Nat → List Char → List Char
  | 0, l => l
  | _ + 1, [] => []
  | n + 1, c :: cs => c :: dedupFuel n (cs.filter (fun d => !(d == c)))

/-- Distinct elements, as Python set collapses repetitions (order is
irrelevant because the report sorts afterwards). -/
def dedupChars (l : List Char) : List Char := dedupFuel l.length l

/-- The characters of the debug block printed to stderr:
sorted(set(unconverted))[:10]. -/
def stderrReport (result : List Char) : List Char :=
  (sortAsc (dedupChars (unconvertedChars result))).take 10

/-- One call of the source function, with both observable channels: returned
is the return value handed to the caller, reported the distinct unconverted
characters the debug block prints to stderr. -/
structure ConversionCall where
  returned : List Char
  reported : List Char

/-- Calling kruti_dev_to_unicode: the caller receives returned; the residual
report only ever reaches the stderr channel. -/
def kruti_dev_call (text : List Char) : ConversionCall :=
  ⟨convertChars text, stderrReport (convertChars text)⟩

/-- Is k a key of either mapping table? -/
def isTableKey (k : List Char) : Bool :=
  multi_char_mapping.any (fun p => p.1 == k) || single_char_mapping.any (fun p => p.1 == k)

/-- Proper prefixes of a pattern: all strictly shorter initial segments. -/
def properPrefixes (p : List Char) : List (List Char) :=
  (List.range p.length).map (fun n => p.take n)

/-- Proper suffixes of a pattern: all strictly shorter final segments. -/
def properSuffixes (p : List Char) : List (List Char) :=
  (List.range p.length).map (fun n => p.drop (n + 1))

/-- Does some proper prefix or proper suffix of p occur as a key of either
table? -/
def hasShorterKeyAffix (p : List Char) : Bool :=
  (properPrefixes p).any (fun k => isTableKey k) ||
    (properSuffixes p).any (fun k => isTableKey k)

/-- All characters occurring in keys of a table. -/
def keyCharsOf : List (List Char × List Char) → List Char
  | [] => []
  | p :: ps => p.1 ++ keyCharsOf ps

/-- All characters occurring in replacement values of a table. -/
def valueCharsOf : List (List Char × List Char) → List Char
  | [] => []
  | p :: ps => p.2 ++ valueCharsOf ps

/-- Characters occurring in some key of either table. -/
def allTableKeyChars : List Char := keyCharsOf (multi_char_mapping ++ single_char_mapping)

/-- Characters occurring in some replacement value of either table. -/
def allTableValueChars : List Char := valueCharsOf (multi_char_mapping ++ single_char_mapping)

/-- A character that occurs in no key and in no replacement value of either
table and is not the reordering marker: the conversion can only pass it
through. -/
def passthroughChar (c : Char) : Bool :=
  !(allTableKeyChars.contains c) && !(allTableValueChars.contains c) && !(c == 'f')

/-- Does pat occur as a contiguous segment of text? -/
def occursWithin (pat : List Char) : List Char → Bool
  | [] => pat.isEmpty
  | c :: rest => pat.isPrefixOf (c :: rest) || occursWithin pat rest

/-- Does any key of either table occur inside some replacement value? -/
def keyOccursInSomeValue : Bool :=
  (multi_char_mapping ++ single_char_mapping).any (fun kp =>
    (multi_char_mapping ++ single_char_mapping).any (fun vp => occursWithin kp.1 vp.2))

/-- Devanagari block codepoint. -/
def isDevanagari (c : Char) : Bool := 0x900 ≤ c.toNat && c.toNat ≤ 0x97F

/-- Precomputed: the single character dict after duplicate collapse (checked below against dictOf single_char_entries). -/
def singleDictL : List (List Char × List Char) := [
  ("É".toList, "ा".toList),
  ("®".toList, "र".toList),
  ("Ê".toList, "ि".toList),
  ("à".toList, "म".toList),
  ("º".toList, "स".toList),
  ("ª".toList, "य".toList),
  ("Ò".toList, "ी".toList),
  ("ã".toList, "े".toList),
  ("å".toList, "न".toList),
  ("è".toList, "ु".toList),
  ("¤".toList, "ब".toList),
  ("´".toList, "ृ".toList),
  ("Æ".toList, "ं".toList),
  ("Ö".toList, "ु".toList),
  ("¶".toList, "फ्".toList),
  ("£".toList, "भ".toList),
  ("Ç".toList, "र्".toList),
  ("Ú".toList, "ूं".toList),
  ("½".toList, "ल".toList),
  ([shy], "ष".toList),
  ("Ó".toList, "ों".toList),
  ("â".toList, "ू".toList),
  ("ó".toList, "ृ".toList),
  ("Å".toList, "ऊ".toList),
  ("§".toList, "ू".toList),
  ("Ë".toList, "ू".toList),
  ("Î".toList, "ी".toList),
  ("Ã".toList, "ई".toList),
  ("Ì".toList, "ि".toList),
  ("ß".toList, "्".toList),
  ("Í".toList, "िं".toList),
  ("Ô".toList, "ौ".toList),
  ("È".toList, "इ".toList),
  ("°".toList, "॰".toList),
  ("æ".toList, "द्र".toList),
  ("ì".toList, "ड्ड".toList),
  ("ô".toList, "क्क".toList),
  ("é".toList, "न्न".toList),
  ("ä".toList, "क्त".toList),
  ("d".toList, "क".toList),
  ("D".toList, "क्".toList),
  ("[".toList, "ख्".toList),
  ("x".toList, "ग".toList),
  ("X".toList, "ग्".toList),
  ("Ä".toList, "घ".toList),
  ("?".toList, "घ्".toList),
  ("³".toList, "ङ".toList),
  ("p".toList, "च".toList),
  ("P".toList, "च्".toList),
  ("N".toList, "छ".toList),
  ("t".toList, "ज".toList),
  ("T".toList, "ज्".toList),
  (">".toList, "झ".toList),
  ("÷".toList, "झ्".toList),
  ("¥".toList, "ञ".toList),
  ("V".toList, "ट".toList),
  ("B".toList, "ठ".toList),
  ("M".toList, "ड".toList),
  ("<".toList, "ढ".toList),
  (".".toList, "ण्".toList),
  ("r".toList, "त".toList),
  ("R".toList, "त्".toList),
  ("F".toList, "थ्".toList),
  (")".toList, "द्ध".toList),
  ("n".toList, "द".toList),
  ("/".toList, "ध्".toList),
  ("u".toList, "न".toList),
  ("U".toList, "न्".toList),
  ("i".toList, "प".toList),
  ("I".toList, "प्".toList),
  ("Q".toList, "फ".toList),
  ("c".toList, "ब".toList),
  ("C".toList, "ब्".toList),
  ("H".toList, "भ्".toList),
  ("e".toList, "म".toList),
  ("E".toList, "म्".toList),
  (";".toList, "य".toList),
  ("¸".toList, "य्".toList),
  ("j".toList, "र".toList),
  ("y".toList, "ल".toList),
  ("Y".toList, "ल्".toList),
  ("G".toList, "ळ".toList),
  ("o".toList, "व".toList),
  ("O".toList, "व्".toList),
  ([sq], [sq]),
  ([dq], "ष्".toList),
  ("l".toList, "स".toList),
  ("L".toList, "स्".toList),
  ("g".toList, "ह".toList),
  ("k".toList, "ा".toList),
  ("s".toList, "ी".toList),
  ("h".toList, "ु".toList),
  ("w".toList, "ू".toList),
  ("S".toList, "े".toList),
  ("a".toList, "ै".toList),
  ("¨".toList, "ॅ".toList),
  ("‚".toList, "ॉ".toList),
  ("^".toList, "ँ".toList),
  ("~".toList, "्".toList),
  ("Z".toList, "़".toList),
  ([lb], "क्ष्".toList),
  ("=".toList, "त्र्".toList),
  ("«".toList, "त्र्".toList),
  ("K".toList, "ज्ञ".toList),
  ("J".toList, "श्र".toList),
  ("Ø".toList, "क्र".toList),
  ("Ý".toList, "फ्र".toList),
  ("ç".toList, "प्र".toList),
  ("Á".toList, "प्र".toList),
  ("í".toList, "द्द".toList),
  ("|".toList, "द्य".toList),
  ([rb], "द्व".toList),
  ("#".toList, "रु".toList),
  (":".toList, "रू".toList),
  ("–".toList, "दृ".toList),
  ("—".toList, "कृ".toList),
  ("v".toList, "अ".toList),
  ("b".toList, "इ".toList),
  ("m".toList, "उ".toList),
  (",".toList, "ए".toList),
  ("_".toList, "ऋ".toList),
  ("0".toList, "०".toList),
  ("1".toList, "१".toList),
  ("2".toList, "२".toList),
  ("3".toList, "३".toList),
  ("4".toList, "४".toList),
  ("5".toList, "५".toList),
  ("6".toList, "६".toList),
  ("7".toList, "७".toList),
  ("8".toList, "८".toList),
  ("9".toList, "९".toList),
  ("ñ".toList, "॰".toList),
  ("*".toList, "।".toList),
  ([':', ' ', dq, dq, dq, ',', ' '], [dq])
]

/-- Precomputed: the multi character pass list, key length descending, stable (checked below against sortByLenDesc multi_char_mapping). -/
def msortL : List (List Char × List Char) := [
  ("[+k".toList, "ख़".toList),
  ("vks".toList, "ओ".toList),
  ("vkS".toList, "औ".toList),
  ("nzZ".toList, "र्द्र".toList),
  ("<ªª".toList, "ढ्र".toList),
  ("èQs".toList, "द्ध".toList),
  ("pkS".toList, "चौ".toList),
  ("=kk".toList, "त्रा".toList),
  ("f=k".toList, "त्रि".toList),
  ("[+".toList, "ख़्".toList),
  ("x+".toList, "ग़".toList),
  ("T+".toList, "ज़्".toList),
  ("t+".toList, "ज़".toList),
  ("M+".toList, "ड़".toList),
  ("<+".toList, "ढ़".toList),
  ("Q+".toList, "फ़".toList),
  (";+".toList, "य़".toList),
  ("j+".toList, "ऱ".toList),
  ("u+".toList, "ऩ".toList),
  ("¶+".toList, "फ़्".toList),
  ("d+".toList, "क़".toList),
  ("[k".toList, "ख".toList),
  ("Xk".toList, "ग".toList),
  ("Dk".toList, "क".toList),
  ("?k".toList, "घ".toList),
  ("Pk".toList, "च".toList),
  ("Tk".toList, "ज".toList),
  ("Fk".toList, "थ".toList),
  ("/k".toList, "ध".toList),
  ([sq, 'k'], "श".toList),
  ([dq, 'k'], "ष".toList),
  ("Hk".toList, "भ".toList),
  (".k".toList, "ण".toList),
  ("vk".toList, "आ".toList),
  ("bZ".toList, "ई".toList),
  (",s".toList, "ऐ".toList),
  ([lb, 'k'], "क्ष".toList),
  ("=k".toList, "त्र".toList),
  ("Ùk".toList, "त्त".toList),
  (")Z".toList, "र्द्ध".toList),
  ("Nî".toList, "छ्य".toList),
  ("Vî".toList, "ट्य".toList),
  ("Bî".toList, "ठ्य".toList),
  ("Mî".toList, "ड्य".toList),
  ("<î".toList, "ढ्य".toList),
  ("Vª".toList, "ट्र".toList),
  ("Mª".toList, "ड्र".toList),
  ("Nª".toList, "छ्र".toList),
  ("xz".toList, "ग्र".toList),
  ("ºz".toList, "ह्र".toList)
]

/-- Precomputed: the single character pass list, key length descending, stable (checked below against sortByLenDesc single_char_mapping). -/
def ssortL : List (List Char × List Char) := [
  ([':', ' ', dq, dq, dq, ',', ' '], [dq]),
  ("É".toList, "ा".toList),
  ("®".toList, "र".toList),
  ("Ê".toList, "ि".toList),
  ("à".toList, "म".toList),
  ("º".toList, "स".toList),
  ("ª".toList, "य".toList),
  ("Ò".toList, "ी".toList),
  ("ã".toList, "े".toList),
  ("å".toList, "न".toList),
  ("è".toList, "ु".toList),
  ("¤".toList, "ब".toList),
  ("´".toList, "ृ".toList),
  ("Æ".toList, "ं".toList),
  ("Ö".toList, "ु".toList),
  ("¶".toList, "फ्".toList),
  ("£".toList, "भ".toList),
  ("Ç".toList, "र्".toList),
  ("Ú".toList, "ूं".toList),
  ("½".toList, "ल".toList),
  ([shy], "ष".toList),
  ("Ó".toList, "ों".toList),
  ("â".toList, "ू".toList),
  ("ó".toList, "ृ".toList),
  ("Å".toList, "ऊ".toList),
  ("§".toList, "ू".toList),
  ("Ë".toList, "ू".toList),
  ("Î".toList, "ी".toList),
  ("Ã".toList, "ई".toList),
  ("Ì".toList, "ि".toList),
  ("ß".toList, "्".toList),
  ("Í".toList, "िं".toList),
  ("Ô".toList, "ौ".toList),
  ("È".toList, "इ".toList),
  ("°".toList, "॰".toList),
  ("æ".toList, "द्र".toList),
  ("ì".toList, "ड्ड".toList),
  ("ô".toList, "क्क".toList),
  ("é".toList, "न्न".toList),
  ("ä".toList, "क्त".toList),
  ("d".toList, "क".toList),
  ("D".toList, "क्".toList),
  ("[".toList, "ख्".toList),
  ("x".toList, "ग".toList),
  ("X".toList, "ग्".toList),
  ("Ä".toList, "घ".toList),
  ("?".toList, "घ्".toList),
  ("³".toList, "ङ".toList),
  ("p".toList, "च".toList),
  ("P".toList, "च्".toList),
  ("N".toList, "छ".toList),
  ("t".toList, "ज".toList),
  ("T".toList, "ज्".toList),
  (">".toList, "झ".toList),
  ("÷".toList, "झ्".toList),
  ("¥".toList, "ञ".toList),
  ("V".toList, "ट".toList),
  ("B".toList, "ठ".toList),
  ("M".toList, "ड".toList),
  ("<".toList, "ढ".toList),
  (".".toList, "ण्".toList),
  ("r".toList, "त".toList),
  ("R".toList, "त्".toList),
  ("F".toList, "थ्".toList),
  (")".toList, "द्ध".toList),
  ("n".toList, "द".toList),
  ("/".toList, "ध्".toList),
  ("u".toList, "न".toList),
  ("U".toList, "न्".toList),
  ("i".toList, "प".toList),
  ("I".toList, "प्".toList),
  ("Q".toList, "फ".toList),
  ("c".toList, "ब".toList),
  ("C".toList, "ब्".toList),
  ("H".toList, "भ्".toList),
  ("e".toList, "म".toList),
  ("E".toList, "म्".toList),
  (";".toList, "य".toList),
  ("¸".toList, "य्".toList),
  ("j".toList, "र".toList),
  ("y".toList, "ल".toList),
  ("Y".toList, "ल्".toList),
  ("G".toList, "ळ".toList),
  ("o".toList, "व".toList),
  ("O".toList, "व्".toList),
  ([sq], [sq]),
  ([dq], "ष्".toList),
  ("l".toList, "स".toList),
  ("L".toList, "स्".toList),
  ("g".toList, "ह".toList),
  ("k".toList, "ा".toList),
  ("s".toList, "ी".toList),
  ("h".toList, "ु".toList),
  ("w".toList, "ू".toList),
  ("S".toList, "े".toList),
  ("a".toList, "ै".toList),
  ("¨".toList, "ॅ".toList),
  ("‚".toList, "ॉ".toList),
  ("^".toList, "ँ".toList),
  ("~".toList, "्".toList),
  ("Z".toList, "़".toList),
  ([lb], "क्ष्".toList),
  ("=".toList, "त्र्".toList),
  ("«".toList, "त्र्".toList),
  ("K".toList, "ज्ञ".toList),
  ("J".toList, "श्र".toList),
  ("Ø".toList, "क्र".toList),
  ("Ý".toList, "फ्र".toList),
  ("ç".toList, "प्र".toList),
  ("Á".toList, "प्र".toList),
  ("í".toList, "द्द".toList),
  ("|".toList, "द्य".toList),
  ([rb], "द्व".toList),
  ("#".toList, "रु".toList),
  (":".toList, "रू".toList),
  ("–".toList, "दृ".toList),
  ("—".toList, "कृ".toList),
  ("v".toList, "अ".toList),
  ("b".toList, "इ".toList),
  ("m".toList, "उ".toList),
  (",".toList, "ए".toList),
  ("_".toList, "ऋ".toList),
  ("0".toList, "०".toList),
  ("1".toList, "१".toList),
  ("2".toList, "२".toList),
  ("3".toList, "३".toList),
  ("4".toList, "४".toList),
  ("5".toList, "५".toList),
  ("6".toList, "६".toList),
  ("7".toList, "७".toList),
  ("8".toList, "८".toList),
  ("9".toList, "९".toList),
  ("ñ".toList, "॰".toList),
  ("*".toList, "।".toList)
]

/-! General lemmas about the embedded operations. -/

/-- The multi character dict literal has no duplicate keys, so building the
dict leaves its items as written. -/
theorem multi_dict_eq : multi_char_mapping = multi_char_entries := by decide

/-- The built single character dict agrees with its precomputed form. -/
theorem single_dict_eq : single_char_mapping = singleDictL := by decide

/-- The sorted multi character pass list agrees with its precomputed form. -/
theorem msort_eq : sortByLenDesc multi_char_mapping = msortL := by
  have h : sortByLenDesc multi_char_entries = msortL := by decide
  rw [multi_dict_eq, h]

/-- The sorted single character pass list agrees with its precomputed form. -/
theorem ssort_eq : sortByLenDesc single_char_mapping = ssortL := by
  have h : sortByLenDesc singleDictL = ssortL := by decide
  rw [single_dict_eq, h]

/-- Evaluation form of the two substitution passes over the precomputed pass
lists. -/
theorem substituted_eval (t : List Char) :
    substituted t = ssortL.foldl (fun acc p => replaceAll p.1 p.2 acc)
      (msortL.foldl (fun acc p => replaceAll p.1 p.2 acc) t) := by
  unfold substituted applyTable
  rw [msort_eq, ssort_eq]

/-- Evaluation form of the whole conversion over the precomputed pass lists. -/
theorem convertChars_eval (t : List Char) :
    convertChars t =
      reorderIMatra (ssortL.foldl (fun acc p => replaceAll p.1 p.2 acc)
        (msortL.foldl (fun acc p => replaceAll p.1 p.2 acc) t)) := by
  unfold convertChars
  rw [substituted_eval]

/-- The reordering loop is the identity on texts without the marker. -/
theorem reorder_id_of_no_f : ∀ (l : List Char), 'f' ∉ l → reorderIMatra l = l
  | [], _ => rfl
  | [_], _ => rfl
  | c :: d :: rest, h => by
    have hc : ¬ (c = 'f') := fun hceq => h (by simp [hceq])
    have hrest : 'f' ∉ d :: rest := fun hm => h (List.mem_cons_of_mem c hm)
    simp only [reorderIMatra, if_neg hc]
    exact congrArg (c :: ·) (reorder_id_of_no_f (d :: rest) hrest)

/-- A trailing marker preceded by marker-free text survives the reordering
loop in place. -/
theorem reorder_trailing_f : ∀ (s : List Char), 'f' ∉ s →
    reorderIMatra (s ++ ['f']) = s ++ ['f']
  | [], _ => rfl
  | [c], h => by
    have hc : ¬ (c = 'f') := fun hceq => h (by simp [hceq])
    simp [reorderIMatra, hc]
  | c :: d :: rest, h => by
    have hc : ¬ (c = 'f') := fun hceq => h (by simp [hceq])
    have hrest : 'f' ∉ d :: rest := fun hm => h (List.mem_cons_of_mem c hm)
    simp only [List.cons_append, reorderIMatra, if_neg hc]
    exact congrArg (c :: ·) (reorder_trailing_f (d :: rest) hrest)

/-- Unfolding: the marker step of the reordering loop, for any following
character, marker included. -/
theorem reorder_marker_step (d : Char) (rest : List Char) :
    reorderIMatra ('f' :: d :: rest) = d :: iMatra :: reorderIMatra rest := by
  simp [reorderIMatra]

/-- Unfolding: the skip step of the reordering loop at a non-marker. -/
theorem reorder_skip_step (c d : Char) (rest : List Char) (hc : ¬ (c = 'f')) :
    reorderIMatra (c :: d :: rest) = c :: reorderIMatra (d :: rest) := by
  simp [reorderIMatra, hc]

/-- A replace pass whose pattern contains a character that the text excludes
leaves the text unchanged, whatever the fuel. -/
theorem replaceFuel_id (pat rep : List Char) (P : Char → Bool) (c₀ : Char)
    (hc₀ : c₀ ∈ pat) (hP₀ : P c₀ = false) :
    ∀ (n : Nat) (text : List Char), (∀ c ∈ text, P c = true) →
      replaceFuel pat rep n text = text
  | 0, _, _ => rfl
  | _ + 1, [], _ => rfl
  | n + 1, c :: rest, htext => by
    have hnp : ¬ (pat ≠ [] ∧ pat.isPrefixOf (c :: rest)) := by
      rintro ⟨-, hpre⟩
      have hsub : pat ⊆ c :: rest := (List.isPrefixOf_iff_prefix.mp hpre).subset
      have hT := htext c₀ (hsub hc₀)
      rw [hP₀] at hT
      exact Bool.false_ne_true hT
    simp only [replaceFuel, if_neg hnp]
    exact congrArg (c :: ·) (replaceFuel_id pat rep P c₀ hc₀ hP₀ n rest
      (fun x hx => htext x (List.mem_cons_of_mem c hx)))

/-- A replace pass whose pattern contains a character that the text excludes
leaves the text unchanged. -/
theorem replaceAll_id (pat rep : List Char) (P : Char → Bool) (c₀ : Char)
    (hc₀ : c₀ ∈ pat) (hP₀ : P c₀ = false)
    (text : List Char) (htext : ∀ c ∈ text, P c = true) :
    replaceAll pat rep text = text :=
  replaceFuel_id pat rep P c₀ hc₀ hP₀ text.length text htext

/-- A sequence of replace passes, each of whose patterns contains an excluded
character, leaves an all-included text unchanged. -/
theorem foldl_replace_id (P : Char → Bool) :
    ∀ (pairs : List (List Char × List Char)),
      (∀ p ∈ pairs, ∃ c ∈ p.1, P c = false) →
      ∀ (text : List Char), (∀ c ∈ text, P c = true) →
        pairs.foldl (fun acc p => replaceAll p.1 p.2 acc) text = text
  | [], _, _, _ => rfl
  | p :: ps, hkeys, text, htext => by
    obtain ⟨c₀, hc₀, hP₀⟩ := hkeys p (List.mem_cons_self p ps)
    rw [List.foldl_cons, replaceAll_id p.1 p.2 P c₀ hc₀ hP₀ text htext]
    exact foldl_replace_id P ps (fun q hq => hkeys q (List.mem_cons_of_mem p hq)) text htext

/-- A replace pass neither consumes nor produces characters foreign to its
pattern and replacement: the subsequence of such characters is untouched,
whatever the fuel. -/
theorem filter_replaceFuel (pat rep : List Char) (Q : Char → Bool)
    (hpat : ∀ c ∈ pat, Q c = false) (hrep : ∀ c ∈ rep, Q c = false) :
    ∀ (n : Nat) (text : List Char),
      (replaceFuel pat rep n text).filter Q = text.filter Q := by
  have hrepnil : rep.filter Q = [] := List.filter_eq_nil_iff.mpr
    (fun a ha => by rw [hrep a ha]; exact Bool.false_ne_true)
  have hpatnil : pat.filter Q = [] := List.filter_eq_nil_iff.mpr
    (fun a ha => by rw [hpat a ha]; exact Bool.false_ne_true)
  intro n
  induction n with
  | zero => intro text; rfl
  | succ n ih =>
    intro text
    match text with
    | [] => rfl
    | c :: rest =>
      by_cases hcond : pat ≠ [] ∧ pat.isPrefixOf (c :: rest)
      · obtain ⟨s, hs⟩ := List.isPrefixOf_iff_prefix.mp hcond.2
        have hdrop : (c :: rest).drop pat.length = s := by
          rw [← hs]; exact List.drop_left pat s
        simp only [replaceFuel, if_pos hcond, hdrop, List.filter_append, hrepnil,
          List.nil_append, ih s]
        rw [← hs, List.filter_append, hpatnil, List.nil_append]
      · simp only [replaceFuel, if_neg hcond, List.filter_cons]
        rw [ih rest]

/-- Version of filter_replaceFuel for the wrapped replace. -/
theorem filter_replaceAll_eq (pat rep : List Char) (Q : Char → Bool)
    (hpat : ∀ c ∈ pat, Q c = false) (hrep : ∀ c ∈ rep, Q c = false)
    (text : List Char) : (replaceAll pat rep text).filter Q = text.filter Q :=
  filter_replaceFuel pat rep Q hpat hrep text.length text

/-- A sequence of replace passes whose patterns and replacements avoid Q
characters leaves the Q subsequence of the text untouched. -/
theorem foldl_filter (Q : Char → Bool) :
    ∀ (pairs : List (List Char × List Char)),
      (∀ p ∈ pairs, (∀ c ∈ p.1, Q c = false) ∧ (∀ c ∈ p.2, Q c = false)) →
      ∀ (text : List Char),
        (pairs.foldl (fun acc p => replaceAll p.1 p.2 acc) text).filter Q = text.filter Q
  | [], _, _ => rfl
  | p :: ps, h, text => by
    rw [List.foldl_cons,
      foldl_filter Q ps (fun q hq => h q (List.mem_cons_of_mem p hq)) _]
    exact filter_replaceAll_eq p.1 p.2 Q (h p (List.mem_cons_self p ps)).1
      (h p (List.mem_cons_self p ps)).2 text

/-- The reordering loop removes only markers and introduces only the i-matra:
the subsequence of characters that are neither is untouched. -/
theorem filter_reorder (Q : Char → Bool) (hf : Q 'f' = false) (hi : Q iMatra = false) :
    ∀ (l : List Char), (reorderIMatra l).filter Q = l.filter Q
  | [] => rfl
  | [_] => rfl
  | c :: d :: rest => by
    by_cases hc : c = 'f'
    · subst hc
      rw [reorder_marker_step]
      simp [List.filter_cons, hf, hi]
      rw [filter_reorder Q hf hi rest]
    · rw [reorder_skip_step c d rest hc]
      simp only [List.filter_cons]
      rw [filter_reorder Q hf hi (d :: rest)]
      simp [List.filter_cons]

/-- Membership through the stable insertion. -/
theorem mem_insertLenDesc (x y : List Char × List Char) :
    ∀ (l : List (List Char × List Char)), y ∈ insertLenDesc x l → y = x ∨ y ∈ l
  | [], h => by simpa [insertLenDesc] using h
  | z :: zs, h => by
    by_cases hlen : x.1.length < z.1.length
    · simp only [insertLenDesc, if_pos hlen] at h
      rcases List.mem_cons.mp h with h1 | h2
      · exact Or.inr (h1 ▸ List.mem_cons_self z zs)
      · rcases mem_insertLenDesc x y zs h2 with h3 | h4
        · exact Or.inl h3
        · exact Or.inr (List.mem_cons_of_mem z h4)
    · simp only [insertLenDesc, if_neg hlen] at h
      rcases List.mem_cons.mp h with h1 | h2
      · exact Or.inl h1
      · exact Or.inr h2

/-- The sorted pass list contains only pairs of the original table. -/
theorem mem_sortByLenDesc (y : List Char × List Char) :
    ∀ (l : List (List Char × List Char)), y ∈ sortByLenDesc l → y ∈ l
  | [], h => by simpa [sortByLenDesc] using h
  | x :: xs, h => by
    simp only [sortByLenDesc] at h
    rcases mem_insertLenDesc x y (sortByLenDesc xs) h with h1 | h2
    · exact h1 ▸ List.mem_cons_self x xs
    · exact List.mem_cons_of_mem x (mem_sortByLenDesc y xs h2)

/-- Characters of a key of a table occur in its key character pool. -/
theorem mem_keyCharsOf (c : Char) :
    ∀ (tbl : List (List Char × List Char)) (p : List Char × List Char),
      p ∈ tbl → c ∈ p.1 → c ∈ keyCharsOf tbl
  | [], p, hp, _ => absurd hp (List.not_mem_nil p)
  | q :: qs, p, hp, hc => by
    simp only [keyCharsOf]
    rcases List.mem_cons.mp hp with h1 | h2
    · exact List.mem_append_left _ (h1 ▸ hc)
    · exact List.mem_append_right _ (mem_keyCharsOf c qs p h2 hc)

/-- Characters of a replacement value of a table occur in its value pool. -/
theorem mem_valueCharsOf (c : Char) :
    ∀ (tbl : List (List Char × List Char)) (p : List Char × List Char),
      p ∈ tbl → c ∈ p.2 → c ∈ valueCharsOf tbl
  | [], p, hp, _ => absurd hp (List.not_mem_nil p)
  | q :: qs, p, hp, hc => by
    simp only [valueCharsOf]
    rcases List.mem_cons.mp hp with h1 | h2
    · exact List.mem_append_left _ (h1 ▸ hc)
    · exact List.mem_append_right _ (mem_valueCharsOf c qs p h2 hc)

/-- A character of some table key is not a passthrough character. -/
theorem passthrough_false_of_key_char (c : Char) (h : c ∈ allTableKeyChars) :
    passthroughChar c = false := by
  simp [passthroughChar]
  intro hk
  exact absurd h hk

/-- A character of some replacement value is not a passthrough character. -/
theorem passthrough_false_of_value_char (c : Char) (h : c ∈ allTableValueChars) :
    passthroughChar c = false := by
  simp [passthroughChar]
  intro _ hv
  exact absurd h hv

/-- The marker is never reported by the residual scan: it is printable ASCII,
inside the accepted class. -/
theorem f_not_unconverted (l : List Char) : 'f' ∉ unconvertedChars l := by
  intro hmem
  have hb := (List.mem_filter.mp hmem).2
  have : acceptedChar 'f' = true := by decide
  rw [this] at hb
  exact absurd hb (by decide)

/-- Ascending insertion never yields the empty list. -/
theorem insertAsc_ne_nil (c : Char) : ∀ (l : List Char), insertAsc c l ≠ []
  | [] => by simp [insertAsc]
  | d :: ds => by
    by_cases h : c ≤ d
    · simp [insertAsc, if_pos h]
    · simp [insertAsc, if_neg h]

/-- Sorting preserves emptiness. -/
theorem sortAsc_eq_nil_iff : ∀ (l : List Char), sortAsc l = [] ↔ l = []
  | [] => by simp [sortAsc]
  | c :: cs => by simp [sortAsc, insertAsc_ne_nil c (sortAsc cs)]

/-- Removing duplicates preserves emptiness. -/
theorem dedupChars_eq_nil_iff : ∀ (l : List Char), dedupChars l = [] ↔ l = []
  | [] => by simp [dedupChars, dedupFuel]
  | c :: cs => by simp [dedupChars, dedupFuel]

/-- The stderr report is empty exactly when every character of the converted
text lies in the accepted class. -/
theorem stderrReport_eq_nil_iff (r : List Char) :
    stderrReport r = [] ↔ ∀ c ∈ r, acceptedChar c = true := by
  unfold stderrReport unconvertedChars
  rw [List.take_eq_nil_iff, sortAsc_eq_nil_iff, dedupChars_eq_nil_iff,
    List.filter_eq_nil_iff]
  simp

/-! Theorems for the claims. -/

/-- C1, counterexample.  The single-unit table maps i to प, not to त, so on
the sample "¤ÉÉiÉ" the conversion returns "बाापा" and not the string
"बााता" that the rules claimed in C1 (¤→ब, É→ा, i→त, É→ा) would produce. -/
theorem claim_C1_counterexample :
    kruti_dev_to_unicode "¤ÉÉiÉ" = "बाापा" ∧ "बाापा" ≠ "बााता" := by
  constructor
  · unfold kruti_dev_to_unicode
    rw [convertChars_eval]
    decide
  · decide

/-- C1, amended: on the sample legacy fragment "¤ÉÉiÉ" the engine applies the
single-unit rules ¤→ब, É→ा, i→प, É→ा of the table, and (being a pure
function of its input) returns the fixed string "बाापा" on every call. -/
theorem claim_C1 :
    kruti_dev_to_unicode "¤ÉÉiÉ" = "बाापा" ∧
      ("¤".toList, "ब".toList) ∈ single_char_mapping ∧
      ("É".toList, "ा".toList) ∈ single_char_mapping ∧
      ("i".toList, "प".toList) ∈ single_char_mapping := by
  refine ⟨?_, ?_, ?_, ?_⟩
  · unfold kruti_dev_to_unicode
    rw [convertChars_eval]
    decide
  · rw [single_dict_eq]; decide
  · rw [single_dict_eq]; decide
  · rw [single_dict_eq]; decide

/-- C2, counterexample.  On the input "ff", whose substituted text ends in the
marker with nothing following it, the trailing marker is not left in place
(the run of two markers makes the first consume the second, returning f
followed by the i-matra), and nothing at all is reported by the residual
scan, since f is printable ASCII and so inside the accepted class. -/
theorem claim_C2_counterexample :
    kruti_dev_to_unicode "ff" = String.mk ['f', iMatra] ∧
      kruti_dev_to_unicode "ff" ≠ "ff" ∧
      unconvertedChars (convertChars "ff".toList) = [] := by
  refine ⟨?_, ?_, ?_⟩
  · unfold kruti_dev_to_unicode
    rw [convertChars_eval]
    decide
  · unfold kruti_dev_to_unicode
    rw [convertChars_eval]
    decide
  · rw [convertChars_eval]
    decide

/-- C2, amended: for every input whose substituted text ends with the marker
f and contains no other marker occurrence, the conversion leaves the trailing
marker unconverted in place (the returned text is the substituted text, still
ending in f), and the marker is never reported by the residual scan, because
f lies in the accepted printable ASCII range. -/
theorem claim_C2 (t s : List Char) (h1 : substituted t = s ++ ['f'])
    (h2 : 'f' ∉ s) :
    convertChars t = s ++ ['f'] ∧ 'f' ∉ unconvertedChars (convertChars t) := by
  have hmain : convertChars t = s ++ ['f'] := by
    unfold convertChars
    rw [h1]
    exact reorder_trailing_f s h2
  exact ⟨hmain, f_not_unconverted _⟩

/-- Witness for C2 at the one-character input "f". -/
theorem claim_C2_witness :
    substituted "f".toList = [] ++ ['f'] ∧ ('f' ∉ ([] : List Char)) ∧
      (convertChars "f".toList = [] ++ ['f'] ∧
        'f' ∉ unconvertedChars (convertChars "f".toList)) := by
  refine ⟨?_, by decide, ?_⟩
  · rw [substituted_eval]; decide
  · exact claim_C2 "f".toList [] (by rw [substituted_eval]; decide) (by decide)

/-- C3, counterexample.  At the input "¢" (an unmappable character outside
the accepted class), the value returned to the caller is the bare converted
text "¢" alone, and the nonempty residual collection appears only on the
modelled stderr channel: the return value carries no residual component. -/
theorem claim_C3_counterexample :
    (kruti_dev_call "¢".toList).returned = "¢".toList ∧
      (kruti_dev_call "¢".toList).reported = ['¢'] ∧
      (kruti_dev_call "¢".toList).returned = convertChars "¢".toList := by
  refine ⟨?_, ?_, ?_⟩ <;> simp only [kruti_dev_call] <;> rw [convertChars_eval] <;> decide

/-- C3, amended: the core function returns only the converted text; the
residual unconvertible characters are computed from that text and reported on
the stderr diagnostic channel, which is empty exactly when every output
character is in the accepted class. -/
theorem claim_C3 (t : List Char) :
    (kruti_dev_call t).returned = convertChars t ∧
      ((kruti_dev_call t).reported = [] ↔
        ∀ c ∈ convertChars t, acceptedChar c = true) := by
  constructor
  · simp only [kruti_dev_call]
  · simp only [kruti_dev_call]
    exact stderrReport_eq_nil_iff (convertChars t)

/-- C4: every multi-unit pattern P that has a proper prefix or suffix that is
also a key of either table converts, as a whole input, to exactly its own
mapped replacement value, never to a concatenation of the shorter keys'
values: the multi pass runs longest-first over untouched text and its
Devanagari outputs match no later key. -/
theorem claim_C4 :
    ∀ p ∈ multi_char_mapping,
      hasShorterKeyAffix p.1 = true → convertChars p.1 = p.2 := by
  have hall : ∀ p ∈ multi_char_entries,
      reorderIMatra (ssortL.foldl (fun acc q => replaceAll q.1 q.2 acc)
        (msortL.foldl (fun acc q => replaceAll q.1 q.2 acc) p.1)) = p.2 := by
    decide
  intro p hp _
  rw [convertChars_eval]
  exact hall p (multi_dict_eq ▸ hp)

/-- Witness for C4 at the pattern vk (its proper prefix v and proper suffix k
are single-unit keys). -/
theorem claim_C4_witness :
    ("vk".toList, "आ".toList) ∈ multi_char_mapping ∧
      hasShorterKeyAffix "vk".toList = true ∧
      convertChars "vk".toList = "आ".toList := by
  have hmem : ("vk".toList, "आ".toList) ∈ multi_char_mapping := by
    rw [multi_dict_eq]; decide
  have haff : hasShorterKeyAffix "vk".toList = true := by
    simp only [hasShorterKeyAffix, isTableKey, multi_dict_eq, single_dict_eq]
    decide
  exact ⟨hmem, haff, claim_C4 ("vk".toList, "आ".toList) hmem haff⟩

/-- C5: the input "fd" (marker followed by the consonant unit d→क) converts
to the consonant base form followed by the i-matra, exactly "कि" and not the
reverse order. -/
theorem claim_C5 : kruti_dev_to_unicode "fd" = "कि" := by
  unfold kruti_dev_to_unicode
  rw [convertChars_eval]
  decide

/-- C6, counterexample.  The unit + matches no key of either table and is not
the marker, yet on input "[+k" it does not appear in the returned text: it is
consumed as part of the matched multi-unit occurrence [+k→ख़. -/
theorem claim_C6_counterexample :
    isTableKey ['+'] = false ∧ kruti_dev_to_unicode "[+k" = "ख़" ∧
      '+' ∉ (kruti_dev_to_unicode "[+k").toList := by
  refine ⟨?_, ?_, ?_⟩
  · simp only [isTableKey, multi_dict_eq, single_dict_eq]
    decide
  · unfold kruti_dev_to_unicode
    rw [convertChars_eval]
    decide
  · unfold kruti_dev_to_unicode
    rw [convertChars_eval]
    decide

/-- C6, amended: the conversion is a total function (the embedding returns a
value on every input, as the source returns normally), and every input unit
that occurs in no key and in no replacement value of either table and is not
the marker passes through unchanged: the subsequence of such units in the
output is exactly their subsequence in the input, in order. -/
theorem claim_C6 (t : List Char) :
    (convertChars t).filter passthroughChar = t.filter passthroughChar := by
  have hpf : passthroughChar 'f' = false := by
    simp only [passthroughChar, allTableKeyChars, allTableValueChars,
      multi_dict_eq, single_dict_eq]
    decide
  have hpi : passthroughChar iMatra = false := by
    simp only [passthroughChar, allTableKeyChars, allTableValueChars,
      multi_dict_eq, single_dict_eq]
    decide
  have hpair : ∀ (tbl : List (List Char × List Char)),
      (∀ p ∈ tbl, p ∈ multi_char_mapping ++ single_char_mapping) →
      ∀ p ∈ sortByLenDesc tbl,
        (∀ c ∈ p.1, passthroughChar c = false) ∧
          (∀ c ∈ p.2, passthroughChar c = false) := by
    intro tbl htbl p hp
    have hmem := htbl p (mem_sortByLenDesc p tbl hp)
    exact ⟨fun c hc => passthrough_false_of_key_char c
        (mem_keyCharsOf c _ p hmem hc),
      fun c hc => passthrough_false_of_value_char c
        (mem_valueCharsOf c _ p hmem hc)⟩
  unfold convertChars substituted applyTable
  rw [filter_reorder passthroughChar hpf hpi,
    foldl_filter passthroughChar _
      (hpair single_char_mapping (fun p hp => List.mem_append_right _ hp)),
    foldl_filter passthroughChar _
      (hpair multi_char_mapping (fun p hp => List.mem_append_left _ hp))]

/-- C7: in the reordering pass, a marker is always handled against the
character immediately following it by the same swap rule, whatever that
character is, markers included; so on a run of two consecutive markers the
first is swapped with the second exactly as with any character, and the scan
proceeds left-to-right past the pair with no special case. -/
theorem claim_C7 :
    (∀ (d : Char) (rest : List Char),
        reorderIMatra ('f' :: d :: rest) = d :: iMatra :: reorderIMatra rest) ∧
      ∀ (rest : List Char),
        reorderIMatra ('f' :: 'f' :: rest) = 'f' :: iMatra :: reorderIMatra rest :=
  ⟨fun d rest => reorder_marker_step d rest, fun rest => reorder_marker_step 'f' rest⟩

/-- C8, evaluation of the bug.  The single-character table contains exactly
one key that is not one character long: the seven-character artifact of the
mangled quote escaping on its last line (colon, space, three double quotes,
comma, space), mapping to a double quote; converting that seven-character
input consumes it by this rule (its double-quote output is then itself
rewritten by the later double-quote rule to ष्). -/
theorem claim_C8_eval :
    single_char_mapping.filter (fun p => !(p.1.length == 1)) =
      [([':', ' ', dq, dq, dq, ',', ' '], [dq])] ∧
      kruti_dev_to_unicode (String.mk [':', ' ', dq, dq, dq, ',', ' ']) = "ष्" := by
  constructor
  · rw [single_dict_eq]; decide
  · unfold kruti_dev_to_unicode
    rw [convertChars_eval]
    decide

/-- C9, counterexample.  A key of the single-unit table does occur inside a
producible replacement value: the apostrophe key maps to itself, and the
double quote (a key mapping to ष्) is the replacement value of the
seven-character artifact key. -/
theorem claim_C9_counterexample :
    keyOccursInSomeValue = true ∧ ([sq], [sq]) ∈ single_char_mapping ∧
      occursWithin [sq] [sq] = true ∧
      ([dq], "ष्".toList) ∈ single_char_mapping ∧
      (single_char_mapping.any (fun p => occursWithin [dq] p.2)) = true := by
  refine ⟨?_, ?_, by decide, ?_, ?_⟩
  · simp only [keyOccursInSomeValue, multi_dict_eq, single_dict_eq]
    decide
  · rw [single_dict_eq]; decide
  · rw [single_dict_eq]; decide
  · rw [single_dict_eq]; decide

/-- C9, amended: no table key is made of Devanagari-block codepoints (every
key contains a character outside the block), so on text consisting only of
Devanagari-block codepoints the conversion is the identity. -/
theorem claim_C9 (t : List Char) (h : ∀ c ∈ t, isDevanagari c = true) :
    convertChars t = t := by
  have hkeys : allTableKeyChars.all (fun c => !(isDevanagari c)) = true := by
    simp only [allTableKeyChars, multi_dict_eq, single_dict_eq]
    decide
  have hne : (multi_char_mapping ++ single_char_mapping).all
      (fun p => !(p.1.isEmpty)) = true := by
    simp only [multi_dict_eq, single_dict_eq]
    decide
  have hDevaKey : ∀ (tbl : List (List Char × List Char)),
      (∀ p ∈ tbl, p ∈ multi_char_mapping ++ single_char_mapping) →
      ∀ p ∈ sortByLenDesc tbl, ∃ c ∈ p.1, isDevanagari c = false := by
    intro tbl htbl p hp
    have hmem := htbl p (mem_sortByLenDesc p tbl hp)
    have hnonempty : p.1 ≠ [] := by
      intro hk
      have hall := List.all_eq_true.mp hne p hmem
      rw [hk] at hall
      simp at hall
    obtain ⟨c, hc⟩ := List.exists_mem_of_ne_nil p.1 hnonempty
    refine ⟨c, hc, ?_⟩
    have hck : c ∈ allTableKeyChars := mem_keyCharsOf c _ p hmem hc
    have := List.all_eq_true.mp hkeys c hck
    simpa using this
  unfold convertChars substituted applyTable
  rw [foldl_replace_id isDevanagari _
      (hDevaKey multi_char_mapping (fun p hp => List.mem_append_left _ hp)) t h,
    foldl_replace_id isDevanagari _
      (hDevaKey single_char_mapping (fun p hp => List.mem_append_right _ hp)) t h]
  apply reorder_id_of_no_f
  intro hf
  exact absurd (h 'f' hf) (by decide)

/-- Witness for C9 at the one-character Devanagari text "क". -/
theorem claim_C9_witness :
    (∀ c ∈ "क".toList, isDevanagari c = true) ∧
      convertChars "क".toList = "क".toList :=
  ⟨by decide, claim_C9 "क".toList (by decide)⟩

/-- C10: the single-unit table literal declares the apostrophe key three
times (to श् on the consonant line, then twice to itself among the quote
entries); the last declaration wins, so the built dictionary maps apostrophe
to itself and converting the one-character input returns it unchanged, never
श्. -/
theorem claim_C10 :
    (single_char_entries.filter (fun p => p.1 == [sq])).map (fun p => p.2) =
      ["श्".toList, [sq], [sq]] ∧
      (single_char_mapping.filter (fun p => p.1 == [sq])).map (fun p => p.2) =
        [[sq]] ∧
      kruti_dev_to_unicode (String.mk [sq]) = String.mk [sq] ∧
      String.mk [sq] ≠ "श्" := by
  refine ⟨by decide, ?_, ?_, by decide⟩
  · rw [single_dict_eq]; decide
  · unfold kruti_dev_to_unicode
    rw [convertChars_eval]
    decide

end Indic2Unicode
